import Mathlib

/-!
# Verification of the mpesa-sdk client library

Shallow embedding of the TypeScript source under `src/` (canonical revision:
the first block of `src/src/mpesa-service.ts`, `src/src/types.ts`, and the
`utils.ts` revision of `src/unnamed/part_000` which contains
`formatPublicKey`).  JavaScript strings are modelled as Lean `String`
(`List Char` where character-level surgery is needed), JS `undefined` as
`Option.none`, JS string falsiness (`""` and `undefined`) explicitly, and
thrown exceptions as `Except`.  Ambient nondeterminism (clock, RNG) is passed
in as explicit parameters.
-/

/-- JS `a || b` for `a : string | undefined`: `b` when `a` is `undefined`
or the empty string (both falsy), otherwise `a`. -/
def jsOr (a : Option String) (b : String) : String :=
  match a with
  | some s => if s = "" then b else s
  | none => b

/-- JS truthiness of a `string | undefined` value. -/
def jsTruthy (a : Option String) : Bool :=
  match a with
  | some s => s ≠ ""
  | none => false

/-! ## Decimal rendering of integers (model of JS number→string for the
template literals in `generateUniqueReference`) -/

/-- The decimal digit character for `d` (callers only use `d < 10`). -/
def digitChar10 : Nat → Char
  | 0 => '0' | 1 => '1' | 2 => '2' | 3 => '3' | 4 => '4'
  | 5 => '5' | 6 => '6' | 7 => '7' | 8 => '8' | _ => '9'

/-- Decimal digits of `n`, most significant first. -/
def natDigits (n : Nat) : List Char :=
  if n < 10 then [digitChar10 n]
  else natDigits (n / 10) ++ [digitChar10 (n % 10)]
termination_by n
decreasing_by
  exact Nat.div_lt_self (by omega) (by decide)

/-- Model of JS template interpolation of a (non-negative integer) number. -/
def jsNatToString (n : Nat) : String := ⟨natDigits n⟩

/-- Numeric value of a digit character. -/
def digitVal (c : Char) : Nat := c.toNat - 48

/-- Numeric value of a most-significant-first digit string. -/
def digitsVal (l : List Char) : Nat := l.foldl (fun a c => a * 10 + digitVal c) 0

/-- Numeric value of a digit `String`. -/
def digitsValS (s : String) : Nat := digitsVal s.data

theorem digitChar10_isDigit (d : Nat) : (digitChar10 d).isDigit = true := by
  unfold digitChar10
  split <;> decide

theorem digitVal_digitChar10 (d : Nat) (h : d < 10) : digitVal (digitChar10 d) = d := by
  interval_cases d <;> decide

theorem natDigits_ne_nil (n : Nat) : natDigits n ≠ [] := by
  unfold natDigits
  split <;> simp

theorem natDigits_all_digit (n : Nat) : ∀ c ∈ natDigits n, c.isDigit = true := by
  induction n using natDigits.induct with
  | case1 n h =>
    rw [natDigits, if_pos h]
    intro c hc
    simp at hc
    subst hc
    exact digitChar10_isDigit n
  | case2 n h ih =>
    rw [natDigits, if_neg h]
    intro c hc
    rcases List.mem_append.mp hc with hc | hc
    · exact ih c hc
    · simp at hc
      subst hc
      exact digitChar10_isDigit (n % 10)

theorem digitsVal_append_one (l : List Char) (c : Char) :
    digitsVal (l ++ [c]) = digitsVal l * 10 + digitVal c := by
  simp [digitsVal, List.foldl_append]

theorem digitsVal_natDigits (n : Nat) : digitsVal (natDigits n) = n := by
  induction n using natDigits.induct with
  | case1 n h =>
    rw [natDigits, if_pos h]
    simp [digitsVal, digitVal_digitChar10 n h]
  | case2 n h ih =>
    rw [natDigits, if_neg h]
    rw [digitsVal_append_one, ih, digitVal_digitChar10 (n % 10) (Nat.mod_lt _ (by omega))]
    omega

/-! ## Key Formatter (`formatPublicKey` in `utils.ts`)

`key.match(/.{1,64}/g)` : the regex `.` skips line terminators; with the
global flag the matcher greedily takes runs of up to 64 non-terminator
characters.  Equivalently: split the string at line terminators and chunk
each segment greedily into pieces of at most 64 characters. -/

/-- JS regex `.` (without the `s` flag) does not match line terminators. -/
def isLineTerminator (c : Char) : Bool :=
  c == '\n' || c == '\r' || c == Char.ofNat 0x2028 || c == Char.ofNat 0x2029

/-- Greedy chunking into pieces of at most 64 characters. -/
def chunk64 (l : List Char) : List (List Char) :=
  if l = [] then []
  else l.take 64 :: chunk64 (l.drop 64)
termination_by l.length
decreasing_by
  rename_i h
  simp only [List.length_drop]
  exact Nat.sub_lt (List.length_pos.mpr h) (by decide)

/-- Split a character list at line terminators (terminators dropped;
adjacent terminators yield empty segments). -/
def lineSegments : List Char → List (List Char)
  | [] => [[]]
  | c :: rest =>
    if isLineTerminator c then [] :: lineSegments rest
    else
      match lineSegments rest with
      | [] => [[c]]
      | s :: ss => (c :: s) :: ss

/-- Model of `key.match(/.{1,64}/g)`: the chunked non-terminator runs in
order (the empty list models a `null` match result). -/
def jsMatchChunks (l : List Char) : List (List Char) :=
  ((lineSegments l).map chunk64).flatten

/-- Does `a` occur at the head of `b`? (helper for substring search). -/
def leadEq : List Char → List Char → Bool
  | [], _ => true
  | _ :: _, [] => false
  | a :: as, b :: bs => a == b && leadEq as bs

/-- Model of JS `hay.includes(needle)`. -/
def hasSub : List Char → List Char → Bool
  | [], needle => leadEq needle []
  | c :: rest, needle => leadEq needle (c :: rest) || hasSub rest needle

def beginMarker : List Char := "BEGIN PUBLIC KEY".data
def pemBegin : List Char := "-----BEGIN PUBLIC KEY-----".data
def pemEnd : List Char := "-----END PUBLIC KEY-----".data

/-- `chunks.join('\n')` on a non-null match result. -/
def joinNL : List (List Char) → List Char
  | [] => []
  | [x] => x
  | x :: xs => x ++ '\n' :: joinNL xs

/-- `formatPublicKey` from `src/unnamed/part_000` (`utils.ts`), character
level.  A `null` regex match result flows through `?.join` as `undefined`
and is interpolated as the literal text `undefined`. -/
def formatPublicKeyL (key : List Char) : List Char :=
  if hasSub key beginMarker then key
  else
    pemBegin ++ '\n' ::
      (match jsMatchChunks key with
        | [] => "undefined".data
        | chs => joinNL chs) ++ '\n' :: pemEnd

/-- `formatPublicKey` at the `String` level. -/
def formatPublicKey (key : String) : String := ⟨formatPublicKeyL key.data⟩

/-! ### Chunking lemmas -/

theorem chunk64_nil : chunk64 [] = [] := by
  rw [chunk64]
  simp

theorem chunk64_cons (l : List Char) (h : l ≠ []) :
    chunk64 l = l.take 64 :: chunk64 (l.drop 64) := by
  rw [chunk64]
  simp [h]

theorem chunk64_eq_nil_iff (l : List Char) : chunk64 l = [] ↔ l = [] := by
  constructor
  · intro h
    by_contra hne
    rw [chunk64_cons l hne] at h
    exact List.cons_ne_nil _ _ h
  · intro h
    subst h
    exact chunk64_nil

theorem chunk64_flatten (l : List Char) : (chunk64 l).flatten = l := by
  induction l using chunk64.induct with
  | case1 =>
    simp [chunk64_nil]
  | case2 l h ih =>
    rw [chunk64_cons l h]
    simp [ih]

theorem chunk64_mem_length_le (l : List Char) : ∀ ch ∈ chunk64 l, ch.length ≤ 64 := by
  induction l using chunk64.induct with
  | case1 =>
    simp [chunk64_nil]
  | case2 l h ih =>
    rw [chunk64_cons l h]
    intro ch hch
    rcases List.mem_cons.mp hch with hch | hch
    · subst hch
      simp [List.length_take]
    · exact ih ch hch

theorem chunk64_mem_ne_nil (l : List Char) : ∀ ch ∈ chunk64 l, ch ≠ [] := by
  induction l using chunk64.induct with
  | case1 =>
    simp [chunk64_nil]
  | case2 l h ih =>
    rw [chunk64_cons l h]
    intro ch hch
    rcases List.mem_cons.mp hch with hch | hch
    · subst hch
      simp only [ne_eq, List.take_eq_nil_iff]
      push_neg
      exact ⟨by decide, h⟩
    · exact ih ch hch

theorem chunk64_dropLast_full (l : List Char) :
    ∀ ch ∈ (chunk64 l).dropLast, ch.length = 64 := by
  induction l using chunk64.induct with
  | case1 =>
    simp [chunk64_nil]
  | case2 l h ih =>
    rw [chunk64_cons l h]
    intro ch hch
    rcases eq_or_ne (chunk64 (l.drop 64)) [] with hrest | hrest
    · rw [hrest] at hch
      simp at hch
    · rw [List.dropLast_cons_of_ne_nil hrest] at hch
      rcases List.mem_cons.mp hch with hch | hch
      · subst hch
        have hlen : 64 < l.length := by
          have := (chunk64_eq_nil_iff (l.drop 64)).not.mp hrest
          have hd : l.drop 64 ≠ [] := this
          rw [ne_eq, List.drop_eq_nil_iff] at hd
          omega
        simp [List.length_take]
        omega
      · exact ih ch hch

theorem lineSegments_of_no_terminator (l : List Char)
    (h : ∀ c ∈ l, isLineTerminator c = false) : lineSegments l = [l] := by
  induction l with
  | nil => rfl
  | cons c rest ih =>
    have hc : isLineTerminator c = false := h c (List.mem_cons_self c rest)
    have hrest := ih (fun x hx => h x (List.mem_cons_of_mem c hx))
    rw [lineSegments]
    simp [hc, hrest]

theorem jsMatchChunks_of_no_terminator (l : List Char)
    (h : ∀ c ∈ l, isLineTerminator c = false) : jsMatchChunks l = chunk64 l := by
  rw [jsMatchChunks, lineSegments_of_no_terminator l h]
  simp

/-! ## Reference Generator (`generateUniqueReference` in `utils.ts`)

The source reads `` `${prefix}-${timestamp}-${random}` `` with
`timestamp = new Date().getTime()` and
`random = Math.floor(Math.random() * 10000)`.  The ambient clock value and
the drawn random integer are passed as explicit parameters. -/

def generateUniqueReference (pre : String) (timestampMillis : Nat) (randomInt : Nat) : String :=
  pre ++ "-" ++ jsNatToString timestampMillis ++ "-" ++ jsNatToString randomInt

/-- The separator-free shape asserted by the specification: the prefix
immediately followed by two digit groups with no separator characters. -/
def refDigitsPattern (pre s : String) : Prop :=
  ∃ g1 g2 : String, g1 ≠ "" ∧ g2 ≠ "" ∧
    (∀ c ∈ g1.data, c.isDigit = true) ∧ (∀ c ∈ g2.data, c.isDigit = true) ∧
    s = pre ++ g1 ++ g2

/-! ## Data model (`types.ts`)

TypeScript interfaces are structural, so the per-operation response
interfaces extending `MpesaBaseResponse` are flattened into one record whose
operation-specific fields are optional. -/

/-- `MpesaBaseResponse` together with the optional fields of the
per-operation response interfaces (`MpesaB2CResponse`, `MpesaQueryResponse`,
`MpesaB2BResponse`). -/
structure MpesaBaseResponse where
  output_ResponseCode : String
  output_ResponseDesc : String
  output_TransactionID : Option String := none
  output_ConversationID : Option String := none
  output_ThirdPartyReference : Option String := none
  output_RecipientFirstName : Option String := none
  output_RecipientLastName : Option String := none
  output_SettlementAmount : Option String := none
  output_ResponseTransactionStatus : Option String := none
  output_ResponsePaymentStatusCode : Option String := none
  output_ResponsePaymentStatusDesc : Option String := none
deriving DecidableEq

/-- `MpesaErrorDetail` from `types.ts`. -/
structure MpesaErrorDetail where
  code : String
  description : String
  httpStatus : Nat
  transactionId : Option String
  conversationId : Option String
  thirdPartyReference : Option String
deriving DecidableEq

/-- The `MpesaError` class: its `message` together with its `details`. -/
structure MpesaError where
  message : String
  details : MpesaErrorDetail
deriving DecidableEq

inductive MpesaEnv
  | sandbox
  | live
deriving DecidableEq

/-- `MpesaAPIConfig` from `types.ts`.  Required string fields may still be
the empty string (which is falsy in the constructor checks). -/
structure MpesaAPIConfig where
  apiKey : String
  publicKey : String
  serviceProviderCode : String
  origin : String
  apiHost : Option String := none
  timeout : Option Nat := none
  env : Option MpesaEnv := none
deriving DecidableEq

inductive RespStatus
  | success
  | error
deriving DecidableEq

/-- The normalized envelope `MpesaResponse<T>` from `types.ts`. -/
structure MpesaResponse (T : Type) where
  status : RespStatus
  message : String
  data : Option T := none
  code : Option String := none
  httpStatus : Option Nat := none
  transactionId : Option String := none
  conversationId : Option String := none
  thirdPartyReference : Option String := none
  timestamp : Option String := none
deriving DecidableEq

/-- A JS number, observed only through `toFixed(2)` (the sole use the
operations make of the caller-supplied amounts). -/
structure JSNumber where
  toFixed2 : String
deriving DecidableEq

structure C2BArgs where
  amount : JSNumber
  number : String
  transactionReference : String
  thirdPartyReference : String
deriving DecidableEq

structure B2CArgs where
  amount : JSNumber
  number : String
  transactionReference : String
  thirdPartyReference : String
  paymentServices : Option String := none
deriving DecidableEq

structure B2BArgs where
  amount : JSNumber
  primaryPartyCode : String
  recipientPartyCode : String
  transactionReference : String
  thirdPartyReference : String
  paymentServices : Option String := none
deriving DecidableEq

structure QueryArgs where
  queryReference : String
  thirdPartyReference : String
deriving DecidableEq

structure ReversalArgs where
  originalTransactionId : String
  reversalAmount : JSNumber
  thirdPartyReference : String
deriving DecidableEq

structure C2BResponseData where
  transactionId : String
  conversationId : String
  thirdPartyReference : String
  amount : String
  customerMsisdn : String
  transactionReference : String
deriving DecidableEq

structure B2CResponseData where
  transactionId : String
  conversationId : String
  thirdPartyReference : String
  amount : String
  customerMsisdn : String
  transactionReference : String
  recipientFirstName : Option String := none
  recipientLastName : Option String := none
  settlementAmount : Option String := none
deriving DecidableEq

structure B2BResponseData where
  transactionId : String
  conversationId : String
  thirdPartyReference : String
  amount : String
  primaryPartyCode : String
  recipientPartyCode : String
  transactionReference : String
  settlementAmount : Option String := none
deriving DecidableEq

structure QueryResponseData where
  transactionId : String
  conversationId : String
  thirdPartyReference : String
  queryReference : String
  transactionStatus : Option String := none
  paymentStatusCode : Option String := none
  paymentStatusDesc : Option String := none
deriving DecidableEq

structure ReversalResponseData where
  transactionId : String
  conversationId : String
  thirdPartyReference : String
  originalTransactionId : String
  reversalAmount : String
deriving DecidableEq

/-- The static `MPESA_ERROR_MESSAGES` record from `types.ts`. -/
def MPESA_ERROR_MESSAGES : List (String × String) :=
  [("INS-0", "Request processed successfully"),
   ("INS-1", "Internal Error"),
   ("INS-2", "Invalid API Key"),
   ("INS-4", "User is not active"),
   ("INS-5", "Transaction cancelled by customer"),
   ("INS-6", "Transaction Failed"),
   ("INS-9", "Request timeout"),
   ("INS-10", "Duplicate Transaction"),
   ("INS-13", "Invalid Shortcode Used"),
   ("INS-14", "Invalid Reference Used"),
   ("INS-15", "Invalid Amount Used"),
   ("INS-16", "Unable to handle the request due to a temporary overloading"),
   ("INS-17", "Invalid Transaction Reference. Length Should Be Between 1 and 20."),
   ("INS-18", "Invalid TransactionID Used"),
   ("INS-19", "Invalid ThirdPartyReference Used"),
   ("INS-20", "Not All Parameters Provided. Please try again."),
   ("INS-21", "Parameter validations failed. Please try again."),
   ("INS-22", "Invalid Operation Type"),
   ("INS-23", "Unknown Status. Contact M-Pesa Support"),
   ("INS-24", "Invalid InitiatorIdentifier Used"),
   ("INS-25", "Invalid SecurityCredential Used"),
   ("INS-26", "Not authorized"),
   ("INS-993", "Direct Debit Missing"),
   ("INS-994", "Direct Debit Already Exists"),
   ("INS-995", "Customer\x27s Profile Has Problems"),
   ("INS-996", "Customer Account Status Not Active"),
   ("INS-997", "Linking Transaction Not Found"),
   ("INS-998", "Invalid Market"),
   ("INS-2001", "Initiator authentication error."),
   ("INS-2002", "Receiver invalid."),
   ("INS-2006", "Insufficient balance"),
   ("INS-2051", "Invalid number"),
   ("INS-2057", "Language code invalid.")]

/-- `MPESA_ERROR_MESSAGES[code]` (a JS property read: `undefined` when
the key is absent). -/
def mpesaErrorMessage (code : String) : Option String :=
  MPESA_ERROR_MESSAGES.lookup code

/-! ## Error values reaching `handleMpesaError`

`axios.isAxiosError(e)` tests `e.isAxiosError === true`; `e.response` (when
present) carries the HTTP status and the (possibly absent) parsed body; the
`catch` paths also read `e.message`. -/

structure ErrResponse where
  status : Nat
  data : Option MpesaBaseResponse
deriving DecidableEq

/-- The observable shape of a thrown JS error value, as far as
`handleMpesaError` inspects it. -/
structure JsError where
  isAxiosError : Bool := false
  response : Option ErrResponse := none
  message : Option String := none
deriving DecidableEq

/-- The object literal `{ response: { status, data } }` that the operations
pass to `handleMpesaError` on a business-failure body; it carries no
`isAxiosError` property and no `message`. -/
def synthAxiosError (status : Nat) (body : MpesaBaseResponse) : JsError :=
  { isAxiosError := false, response := some { status := status, data := some body }, message := none }

/-- A thrown `MpesaError` re-entering `handleMpesaError` through a `catch`
block: not an axios error, no `response`, its `message` string. -/
def mpesaErrorAsJsError (e : MpesaError) : JsError :=
  { isAxiosError := false, response := none, message := some e.message }

/-! ## MpesaService (`mpesa-service.ts`, canonical revision) -/

namespace MpesaService

/-- Host resolution in the constructor: the `env` tag is examined first and,
when it is `sandbox` or `live`, overwrites `config.apiHost`; only otherwise
is a truthy explicit `apiHost` used. -/
def resolveApiHost (config : MpesaAPIConfig) : Option String :=
  if config.env = some MpesaEnv.sandbox then some "api.sandbox.vm.co.mz:18352"
  else if config.env = some MpesaEnv.live then some "api.vm.co.mz:18352"
  else if jsTruthy config.apiHost then config.apiHost
  else none

/-- The configuration-validation part of the `MpesaService` constructor
(`throw` modelled as `Except.error` carrying the message).  The later
token-generation step (RSA encryption) is outside this model. -/
def init (config : MpesaAPIConfig) : Except String MpesaAPIConfig :=
  if config.apiKey = "" ∨ config.publicKey = "" ∨
      config.serviceProviderCode = "" ∨ config.origin = "" then
    Except.error "As configuracoes da API M-Pesa (apiKey, publicKey, serviceProviderCode, origin) sao obrigatorias."
  else
    match resolveApiHost config with
    | some host =>
        Except.ok { config with
          apiHost := some host,
          timeout := some (match config.timeout with
            | some t => if t = 0 then 30000 else t
            | none => 30000) }
    | none =>
        Except.error "E necessario definir o ambiente (env: sandbox ou live) ou fornecer apiHost."

/-- `handleMpesaError`: builds the `MpesaError` that the method throws. -/
def handleMpesaError (error : JsError) (context : String) : MpesaError :=
  let httpStatus0 : Nat := 500
  let mpesaCode0 : String := "INS-1"
  let mpesaDesc0 : String := jsOr (mpesaErrorMessage "INS-1") "Internal Error"
  match error.response, error.isAxiosError with
  | some resp, true =>
      let fields :=
        match resp.data with
        | some d =>
            let code := jsOr (some d.output_ResponseCode) mpesaCode0
            let desc := jsOr (mpesaErrorMessage code) (jsOr (some d.output_ResponseDesc) mpesaDesc0)
            (code, desc, d.output_TransactionID, d.output_ConversationID, d.output_ThirdPartyReference)
        | none => (mpesaCode0, mpesaDesc0, none, none, none)
      let errorMessage :=
        "M-Pesa " ++ context ++ " Error: " ++ fields.2.1 ++
          " (Code: " ++ fields.1 ++ ", HTTP: " ++ jsNatToString resp.status ++ ")"
      { message := errorMessage,
        details :=
          { code := fields.1, description := fields.2.1, httpStatus := resp.status,
            transactionId := fields.2.2.1, conversationId := fields.2.2.2.1,
            thirdPartyReference := fields.2.2.2.2 } }
  | _, _ =>
      let networkErrorDesc := jsOr (mpesaErrorMessage "INS-27") "Network error"
      let errorMessage :=
        "M-Pesa " ++ context ++ " Error: " ++ networkErrorDesc ++ " - " ++
          (match error.message with | some m => m | none => "undefined")
      { message := errorMessage,
        details :=
          { code := mpesaCode0, description := mpesaDesc0, httpStatus := httpStatus0,
            transactionId := none, conversationId := none, thirdPartyReference := none } }

/-- `transformResponse`: the raw body to normalized-envelope transformer.
`nowIso` is the ambient `new Date().toISOString()` value. -/
def transformResponse {T : Type} (response : MpesaBaseResponse) (context : String)
    (transformData : MpesaBaseResponse → T) (nowIso : String) : MpesaResponse T :=
  let isSuccess := response.output_ResponseCode = "INS-0"
  { status := if isSuccess then RespStatus.success else RespStatus.error
    message := jsOr (some response.output_ResponseDesc) "No description provided"
    data := if isSuccess then some (transformData response) else none
    code := some response.output_ResponseCode
    httpStatus := some (if isSuccess then 200 else 400)
    transactionId := response.output_TransactionID
    conversationId := response.output_ConversationID
    thirdPartyReference := response.output_ThirdPartyReference
    timestamp := some nowIso }

/-- The outcome of the single `httpClient.post` an operation performs:
axios either resolves (2xx `status` with a parsed `body`) or rejects with a
thrown error value. -/
inductive TransportOutcome
  | resolved (status : Nat) (body : MpesaBaseResponse)
  | rejected (error : JsError)
deriving DecidableEq

/-- The shared response-handling shape of the five operation methods.  On a
success-sentinel body the envelope is returned; on any other body the
`else` branch calls `handleMpesaError` on a synthesized object, whose thrown
`MpesaError` is then caught by the surrounding `catch` and passed through
`handleMpesaError` a second time; a transport rejection goes through
`handleMpesaError` once. -/
def runOperation {T : Type} (context : String) (transformData : MpesaBaseResponse → T)
    (nowIso : String) (outcome : TransportOutcome) : Except MpesaError (MpesaResponse T) :=
  match outcome with
  | TransportOutcome.resolved status body =>
      if body.output_ResponseCode = "INS-0" then
        Except.ok (transformResponse body context transformData nowIso)
      else
        Except.error
          (handleMpesaError
            (mpesaErrorAsJsError (handleMpesaError (synthAxiosError status body) context))
            context)
  | TransportOutcome.rejected e => Except.error (handleMpesaError e context)

/-- `c2b` (response-processing part; the posted payload and headers are not
observed by any property below). -/
def c2b (config : MpesaAPIConfig) (args : C2BArgs) (nowIso : String)
    (outcome : TransportOutcome) : Except MpesaError (MpesaResponse C2BResponseData) :=
  runOperation "C2B"
    (fun data =>
      { transactionId := jsOr data.output_TransactionID ""
        conversationId := jsOr data.output_ConversationID ""
        thirdPartyReference := jsOr data.output_ThirdPartyReference ""
        amount := args.amount.toFixed2
        customerMsisdn := args.number
        transactionReference := args.transactionReference })
    nowIso outcome

/-- `b2c` (response-processing part). -/
def b2c (config : MpesaAPIConfig) (args : B2CArgs) (nowIso : String)
    (outcome : TransportOutcome) : Except MpesaError (MpesaResponse B2CResponseData) :=
  runOperation "B2C"
    (fun data =>
      { transactionId := jsOr data.output_TransactionID ""
        conversationId := jsOr data.output_ConversationID ""
        thirdPartyReference := jsOr data.output_ThirdPartyReference ""
        amount := args.amount.toFixed2
        customerMsisdn := args.number
        transactionReference := args.transactionReference
        recipientFirstName := data.output_RecipientFirstName
        recipientLastName := data.output_RecipientLastName
        settlementAmount := data.output_SettlementAmount })
    nowIso outcome

/-- `b2b` (response-processing part). -/
def b2b (config : MpesaAPIConfig) (args : B2BArgs) (nowIso : String)
    (outcome : TransportOutcome) : Except MpesaError (MpesaResponse B2BResponseData) :=
  runOperation "B2B"
    (fun data =>
      { transactionId := jsOr data.output_TransactionID ""
        conversationId := jsOr data.output_ConversationID ""
        thirdPartyReference := jsOr data.output_ThirdPartyReference ""
        amount := args.amount.toFixed2
        primaryPartyCode := args.primaryPartyCode
        recipientPartyCode := args.recipientPartyCode
        transactionReference := args.transactionReference
        settlementAmount := data.output_SettlementAmount })
    nowIso outcome

/-- `query` (response-processing part). -/
def query (config : MpesaAPIConfig) (args : QueryArgs) (nowIso : String)
    (outcome : TransportOutcome) : Except MpesaError (MpesaResponse QueryResponseData) :=
  runOperation "Query"
    (fun data =>
      { transactionId := jsOr data.output_TransactionID ""
        conversationId := jsOr data.output_ConversationID ""
        thirdPartyReference := jsOr data.output_ThirdPartyReference ""
        queryReference := args.queryReference
        transactionStatus := data.output_ResponseTransactionStatus
        paymentStatusCode := data.output_ResponsePaymentStatusCode
        paymentStatusDesc := data.output_ResponsePaymentStatusDesc })
    nowIso outcome

/-- `reversal` (response-processing part). -/
def reversal (config : MpesaAPIConfig) (args : ReversalArgs) (nowIso : String)
    (outcome : TransportOutcome) : Except MpesaError (MpesaResponse ReversalResponseData) :=
  runOperation "Reversal"
    (fun data =>
      { transactionId := jsOr data.output_TransactionID ""
        conversationId := jsOr data.output_ConversationID ""
        thirdPartyReference := jsOr data.output_ThirdPartyReference ""
        originalTransactionId := args.originalTransactionId
        reversalAmount := args.reversalAmount.toFixed2 })
    nowIso outcome

end MpesaService

/-! ### Observation helpers on operation results -/

/-- The `(code, description, httpStatus)` triple of the thrown error, when
the call threw. -/
def errInfo {T : Type} : Except MpesaError (MpesaResponse T) → Option (String × String × Nat)
  | Except.error e => some (e.details.code, e.details.description, e.details.httpStatus)
  | Except.ok _ => none

/-- The `message` of the thrown error, when the call threw. -/
def errMsg {T : Type} : Except MpesaError (MpesaResponse T) → Option String
  | Except.error e => some e.message
  | Except.ok _ => none

/-- Did the call return (rather than throw)? -/
def isOkResult {T : Type} : Except MpesaError (MpesaResponse T) → Bool
  | Except.ok _ => true
  | Except.error _ => false

/-- The envelope invariant of C10: a returned envelope has status
`success`, httpStatus 200 and a present data payload (vacuously true for a
thrown error). -/
def envInvariant {T : Type} : Except MpesaError (MpesaResponse T) → Bool
  | Except.ok env =>
      (match env.status with | RespStatus.success => true | RespStatus.error => false)
        && env.httpStatus == some 200 && env.data.isSome
  | Except.error _ => true

/-- The resolved host of a constructed client (`none` when construction
threw). -/
def hostOf : Except String MpesaAPIConfig → Option String
  | Except.ok c => c.apiHost
  | Except.error _ => none

/-- Did construction throw? -/
def initThrows (r : Except String MpesaAPIConfig) : Bool :=
  match r with
  | Except.ok _ => false
  | Except.error _ => true

/-! ## Constructor properties (claims C4 and C8) -/

theorem resolveApiHost_eq_none_iff (config : MpesaAPIConfig) :
    MpesaService.resolveApiHost config = none ↔
      (config.env = none ∧ jsTruthy config.apiHost = false) := by
  unfold MpesaService.resolveApiHost
  rcases henv : config.env with _ | e
  · simp only [henv]
    rcases hah : config.apiHost with _ | s
    · simp [jsTruthy, hah]
    · by_cases hs : s = ""
      · simp [jsTruthy, hah, hs]
      · simp [jsTruthy, hah, hs]
  · cases e <;> simp [henv]

/-- C8: the `MpesaService` constructor throws exactly when one of the four
required configuration strings is missing (falsy), or when the `env` tag is
absent and no truthy explicit `apiHost` is supplied; in every other case the
configuration-validation part of construction succeeds. -/
theorem C8_constructor_validation (config : MpesaAPIConfig) :
    initThrows (MpesaService.init config) = true ↔
      (config.apiKey = "" ∨ config.publicKey = "" ∨ config.serviceProviderCode = "" ∨
        config.origin = "" ∨ (config.env = none ∧ jsTruthy config.apiHost = false)) := by
  unfold MpesaService.init
  by_cases h1 : config.apiKey = "" ∨ config.publicKey = "" ∨
      config.serviceProviderCode = "" ∨ config.origin = ""
  · rw [if_pos h1]
    simp [initThrows]
    tauto
  · rw [if_neg h1]
    rcases hres : MpesaService.resolveApiHost config with _ | host
    · have := (resolveApiHost_eq_none_iff config).mp hres
      simp [initThrows, this]
    · have hne : ¬ (config.env = none ∧ jsTruthy config.apiHost = false) := by
        intro hcontra
        rw [(resolveApiHost_eq_none_iff config).mpr hcontra] at hres
        exact Option.noConfusion hres
      constructor
      · intro hfalse
        simp [initThrows] at hfalse
      · intro hdisj
        exfalso
        rcases hdisj with h | h | h | h | h
        · exact h1 (Or.inl h)
        · exact h1 (Or.inr (Or.inl h))
        · exact h1 (Or.inr (Or.inr (Or.inl h)))
        · exact h1 (Or.inr (Or.inr (Or.inr h)))
        · exact hne h

/-- C4 amended: the environment tag takes precedence over an explicit
`apiHost`: `env = sandbox` forces the sandbox host and `env = live` the live
host even when `apiHost` is supplied; the explicit `apiHost` is used only
when no `env` tag is present. -/
theorem C4_env_precedence (config : MpesaAPIConfig)
    (hreq : config.apiKey ≠ "" ∧ config.publicKey ≠ "" ∧
      config.serviceProviderCode ≠ "" ∧ config.origin ≠ "") :
    (config.env = some MpesaEnv.sandbox →
        hostOf (MpesaService.init config) = some "api.sandbox.vm.co.mz:18352")
    ∧ (config.env = some MpesaEnv.live →
        hostOf (MpesaService.init config) = some "api.vm.co.mz:18352")
    ∧ (config.env = none → jsTruthy config.apiHost = true →
        hostOf (MpesaService.init config) = config.apiHost) := by
  obtain ⟨h1, h2, h3, h4⟩ := hreq
  have hcond : ¬ (config.apiKey = "" ∨ config.publicKey = "" ∨
      config.serviceProviderCode = "" ∨ config.origin = "") := by tauto
  refine ⟨?_, ?_, ?_⟩
  · intro henv
    unfold MpesaService.init
    rw [if_neg hcond]
    have : MpesaService.resolveApiHost config = some "api.sandbox.vm.co.mz:18352" := by
      unfold MpesaService.resolveApiHost
      simp [henv]
    rw [this]
    simp [hostOf]
  · intro henv
    unfold MpesaService.init
    rw [if_neg hcond]
    have : MpesaService.resolveApiHost config = some "api.vm.co.mz:18352" := by
      unfold MpesaService.resolveApiHost
      simp [henv]
    rw [this]
    simp [hostOf]
  · intro henv hah
    unfold MpesaService.init
    rw [if_neg hcond]
    rcases hh : config.apiHost with _ | s
    · rw [hh] at hah
      simp [jsTruthy] at hah
    · rw [hh] at hah
      have : MpesaService.resolveApiHost config = some s := by
        unfold MpesaService.resolveApiHost
        simp [henv, hh, hah]
      rw [this]
      simp [hostOf, hh]

/-- A configuration supplying both an `env` tag and an explicit `apiHost`. -/
def cfgOverride : MpesaAPIConfig :=
  { apiKey := "k", publicKey := "p", serviceProviderCode := "171717",
    origin := "developer.mpesa.vm.co.mz",
    apiHost := some "custom.example.com:9999", env := some MpesaEnv.sandbox }

/-- C4 counterexample: with `env = sandbox` and an explicit
`apiHost = custom.example.com:9999`, the constructed client uses the sandbox
host, so the explicit host does not override the environment mapping. -/
theorem C4_counterexample :
    cfgOverride.apiHost = some "custom.example.com:9999"
    ∧ cfgOverride.env = some MpesaEnv.sandbox
    ∧ hostOf (MpesaService.init cfgOverride) = some "api.sandbox.vm.co.mz:18352"
    ∧ hostOf (MpesaService.init cfgOverride) ≠ cfgOverride.apiHost := by
  decide

/-- Witness for C4: the amended statement applied to `cfgOverride`. -/
theorem C4_witness :
    (cfgOverride.apiKey ≠ "" ∧ cfgOverride.publicKey ≠ "" ∧
      cfgOverride.serviceProviderCode ≠ "" ∧ cfgOverride.origin ≠ "")
    ∧ (cfgOverride.env = some MpesaEnv.sandbox →
        hostOf (MpesaService.init cfgOverride) = some "api.sandbox.vm.co.mz:18352") :=
  ⟨by decide, (C4_env_precedence cfgOverride (by decide)).1⟩

/-! ## Error-path properties (claims C1, C3, C7) -/

theorem mpesaErrorMessage_INS1 : mpesaErrorMessage "INS-1" = some "Internal Error" := by
  decide

theorem mpesaErrorMessage_INS27 : mpesaErrorMessage "INS-27" = none := by
  decide

/-- Any error value without a `response` object is routed through the
network branch of `handleMpesaError`, whose `details` are the fixed
fallback triple (the network-error text goes only into the message). -/
theorem handle_no_response_details (e : JsError) (ctx : String) (h : e.response = none) :
    (MpesaService.handleMpesaError e ctx).details =
      { code := "INS-1", description := "Internal Error", httpStatus := 500,
        transactionId := none, conversationId := none, thirdPartyReference := none } := by
  obtain ⟨b, resp, m⟩ := e
  simp only at h
  subst h
  cases b <;> cases m <;> rfl

/-- The message built by the network branch of `handleMpesaError`. -/
theorem handle_no_response_message (e : JsError) (ctx : String) (h : e.response = none) :
    (MpesaService.handleMpesaError e ctx).message =
      "M-Pesa " ++ ctx ++ " Error: " ++ "Network error" ++ " - " ++
        (match e.message with | some m => m | none => "undefined") := by
  obtain ⟨b, resp, m⟩ := e
  simp only at h
  subst h
  cases b <;> cases m <;> rfl

/-- The business-failure path: the synthesized error object carries no
`isAxiosError` property, so `axios.isAxiosError` rejects it and both passes
through `handleMpesaError` take the network branch; the final details are
the fixed fallback triple regardless of the body. -/
theorem runOperation_resolved {T : Type} (ctx : String) (tr : MpesaBaseResponse → T)
    (nowIso : String) (st : Nat) (body : MpesaBaseResponse) :
    MpesaService.runOperation ctx tr nowIso (MpesaService.TransportOutcome.resolved st body)
      = if body.output_ResponseCode = "INS-0" then
          Except.ok (MpesaService.transformResponse body ctx tr nowIso)
        else
          Except.error
            (MpesaService.handleMpesaError
              (mpesaErrorAsJsError (MpesaService.handleMpesaError (synthAxiosError st body) ctx))
              ctx) := rfl

theorem runOperation_rejected {T : Type} (ctx : String) (tr : MpesaBaseResponse → T)
    (nowIso : String) (e : JsError) :
    MpesaService.runOperation ctx tr nowIso (MpesaService.TransportOutcome.rejected e)
      = Except.error (MpesaService.handleMpesaError e ctx) := rfl

theorem errInfo_error {T : Type} (e : MpesaError) :
    errInfo (T := T) (Except.error e)
      = some (e.details.code, e.details.description, e.details.httpStatus) := rfl

theorem errMsg_error {T : Type} (e : MpesaError) :
    errMsg (T := T) (Except.error e) = some e.message := rfl

theorem runOperation_business_failure {T : Type} (ctx : String)
    (tr : MpesaBaseResponse → T) (nowIso : String) (st : Nat) (body : MpesaBaseResponse)
    (h : body.output_ResponseCode ≠ "INS-0") :
    errInfo (MpesaService.runOperation ctx tr nowIso (MpesaService.TransportOutcome.resolved st body))
      = some ("INS-1", "Internal Error", 500) := by
  rw [runOperation_resolved, if_neg h, errInfo_error, handle_no_response_details _ ctx rfl]

/-- C1 amended: when the transport succeeds but the body's code is not the
success sentinel, each of the five operations throws a `MpesaError` whose
details are always `code = INS-1`, `description = Internal Error`,
`httpStatus = 500` — not the body's code, and not 400/the transport status —
because the synthesized error object fails the `axios.isAxiosError` check
and is routed (twice) through the network-failure branch. -/
theorem C1_business_failure_degrades (config : MpesaAPIConfig) (nowIso : String)
    (st : Nat) (body : MpesaBaseResponse) (h : body.output_ResponseCode ≠ "INS-0")
    (a1 : C2BArgs) (a2 : B2CArgs) (a3 : B2BArgs) (a4 : QueryArgs) (a5 : ReversalArgs) :
    errInfo (MpesaService.c2b config a1 nowIso (MpesaService.TransportOutcome.resolved st body))
        = some ("INS-1", "Internal Error", 500)
    ∧ errInfo (MpesaService.b2c config a2 nowIso (MpesaService.TransportOutcome.resolved st body))
        = some ("INS-1", "Internal Error", 500)
    ∧ errInfo (MpesaService.b2b config a3 nowIso (MpesaService.TransportOutcome.resolved st body))
        = some ("INS-1", "Internal Error", 500)
    ∧ errInfo (MpesaService.query config a4 nowIso (MpesaService.TransportOutcome.resolved st body))
        = some ("INS-1", "Internal Error", 500)
    ∧ errInfo (MpesaService.reversal config a5 nowIso (MpesaService.TransportOutcome.resolved st body))
        = some ("INS-1", "Internal Error", 500) :=
  ⟨runOperation_business_failure _ _ _ _ _ h,
   runOperation_business_failure _ _ _ _ _ h,
   runOperation_business_failure _ _ _ _ _ h,
   runOperation_business_failure _ _ _ _ _ h,
   runOperation_business_failure _ _ _ _ _ h⟩

/-- A demonstration configuration, argument bundles and timestamp. -/
def cfgDemo : MpesaAPIConfig :=
  { apiKey := "k", publicKey := "p", serviceProviderCode := "171717",
    origin := "developer.mpesa.vm.co.mz", env := some MpesaEnv.sandbox }

def c2bArgsDemo : C2BArgs :=
  { amount := { toFixed2 := "100.00" }, number := "258841234567",
    transactionReference := "TRX1", thirdPartyReference := "REF1" }

def b2cArgsDemo : B2CArgs :=
  { amount := { toFixed2 := "50.00" }, number := "258847654321",
    transactionReference := "TRX2", thirdPartyReference := "REF2" }

def b2bArgsDemo : B2BArgs :=
  { amount := { toFixed2 := "25.00" }, primaryPartyCode := "COMPANY001",
    recipientPartyCode := "COMPANY002", transactionReference := "TRX3",
    thirdPartyReference := "REF3" }

def queryArgsDemo : QueryArgs :=
  { queryReference := "trx1", thirdPartyReference := "REF4" }

def reversalArgsDemo : ReversalArgs :=
  { originalTransactionId := "trx1", reversalAmount := { toFixed2 := "10.00" },
    thirdPartyReference := "REF5" }

def nowDemo : String := "2025-01-01T00:00:00.000Z"

/-- An insufficient-balance business-failure body delivered with transport
status 200. -/
def bizBody : MpesaBaseResponse :=
  { output_ResponseCode := "INS-2006", output_ResponseDesc := "Insufficient balance",
    output_TransactionID := some "trx_fail", output_ConversationID := some "conv_fail",
    output_ThirdPartyReference := some "REF1" }

/-- C1 counterexample: an `INS-2006` body with transport status 200 makes
`c2b` throw with code `INS-1` and httpStatus 500 — not the body's code and
not 400 as the claim states. -/
theorem C1_counterexample :
    bizBody.output_ResponseCode = "INS-2006"
    ∧ errInfo (MpesaService.c2b cfgDemo c2bArgsDemo nowDemo
        (MpesaService.TransportOutcome.resolved 200 bizBody))
        = some ("INS-1", "Internal Error", 500)
    ∧ "INS-1" ≠ bizBody.output_ResponseCode
    ∧ (500 : Nat) ≠ 400 := by
  decide

/-- Witness for C1: the amended statement applied to `bizBody`. -/
theorem C1_witness :
    bizBody.output_ResponseCode ≠ "INS-0"
    ∧ errInfo (MpesaService.c2b cfgDemo c2bArgsDemo nowDemo
        (MpesaService.TransportOutcome.resolved 200 bizBody))
        = some ("INS-1", "Internal Error", 500) :=
  ⟨by decide,
   (C1_business_failure_degrades cfgDemo nowDemo 200 bizBody (by decide)
      c2bArgsDemo b2cArgsDemo b2bArgsDemo queryArgsDemo reversalArgsDemo).1⟩

/-- C3 amended: on a transport rejection with no `response` object, every
operation throws a `MpesaError` with `details.code = INS-1` and
`details.httpStatus = 500`; `details.description` however is the generic
internal-error text (`Internal Error`) — the network-error text
(`Network error`) appears only in the error's `message`. -/
theorem C3_network_failure_error (config : MpesaAPIConfig) (nowIso : String)
    (e : JsError) (h : e.response = none)
    (a1 : C2BArgs) (a2 : B2CArgs) (a3 : B2BArgs) (a4 : QueryArgs) (a5 : ReversalArgs) :
    errInfo (MpesaService.c2b config a1 nowIso (MpesaService.TransportOutcome.rejected e))
        = some ("INS-1", "Internal Error", 500)
    ∧ errMsg (MpesaService.c2b config a1 nowIso (MpesaService.TransportOutcome.rejected e))
        = some ("M-Pesa " ++ "C2B" ++ " Error: " ++ "Network error" ++ " - " ++
            (match e.message with | some m => m | none => "undefined"))
    ∧ errInfo (MpesaService.b2c config a2 nowIso (MpesaService.TransportOutcome.rejected e))
        = some ("INS-1", "Internal Error", 500)
    ∧ errInfo (MpesaService.b2b config a3 nowIso (MpesaService.TransportOutcome.rejected e))
        = some ("INS-1", "Internal Error", 500)
    ∧ errInfo (MpesaService.query config a4 nowIso (MpesaService.TransportOutcome.rejected e))
        = some ("INS-1", "Internal Error", 500)
    ∧ errInfo (MpesaService.reversal config a5 nowIso (MpesaService.TransportOutcome.rejected e))
        = some ("INS-1", "Internal Error", 500) := by
  refine ⟨?_, ?_, ?_, ?_, ?_, ?_⟩
  · unfold MpesaService.c2b
    rw [runOperation_rejected, errInfo_error, handle_no_response_details e _ h]
  · unfold MpesaService.c2b
    rw [runOperation_rejected, errMsg_error, handle_no_response_message e _ h]
  · unfold MpesaService.b2c
    rw [runOperation_rejected, errInfo_error, handle_no_response_details e _ h]
  · unfold MpesaService.b2b
    rw [runOperation_rejected, errInfo_error, handle_no_response_details e _ h]
  · unfold MpesaService.query
    rw [runOperation_rejected, errInfo_error, handle_no_response_details e _ h]
  · unfold MpesaService.reversal
    rw [runOperation_rejected, errInfo_error, handle_no_response_details e _ h]

/-- A transport-level rejection with no response object (network failure /
timeout): a genuine axios error, `response` absent. -/
def netErrDemo : JsError :=
  { isAxiosError := true, response := none, message := some "timeout of 30000ms exceeded" }

/-- C3 counterexample: on a transport failure without a response the thrown
error's `details.description` is the internal-error text, not the
network-error description required by the claim (the table has no `INS-27`
entry, so the network-error description is the fixed text `Network error`,
which never reaches `details.description`). -/
theorem C3_counterexample :
    errInfo (MpesaService.c2b cfgDemo c2bArgsDemo nowDemo
        (MpesaService.TransportOutcome.rejected netErrDemo))
      = some ("INS-1", "Internal Error", 500)
    ∧ jsOr (mpesaErrorMessage "INS-27") "Network error" = "Network error"
    ∧ "Internal Error" ≠ "Network error" := by
  decide

/-- Witness for C3: the amended statement applied to `netErrDemo`. -/
theorem C3_witness :
    netErrDemo.response = none
    ∧ errInfo (MpesaService.c2b cfgDemo c2bArgsDemo nowDemo
        (MpesaService.TransportOutcome.rejected netErrDemo))
      = some ("INS-1", "Internal Error", 500) :=
  ⟨rfl,
   (C3_network_failure_error cfgDemo nowDemo netErrDemo rfl
      c2bArgsDemo b2cArgsDemo b2bArgsDemo queryArgsDemo reversalArgsDemo).1⟩

/-! ## Success-path properties (claims C5, C2, C10) -/

/-- C5: on a body whose code is the success sentinel, `transformResponse`
yields an envelope with status success, httpStatus 200, the data payload
built by the per-operation transform, and the three correlation identifiers
copied from the body. -/
theorem C5_success_transform {T : Type} (body : MpesaBaseResponse) (ctx : String)
    (tr : MpesaBaseResponse → T) (nowIso : String)
    (h : body.output_ResponseCode = "INS-0") :
    (MpesaService.transformResponse body ctx tr nowIso).status = RespStatus.success
    ∧ (MpesaService.transformResponse body ctx tr nowIso).httpStatus = some 200
    ∧ (MpesaService.transformResponse body ctx tr nowIso).data = some (tr body)
    ∧ (MpesaService.transformResponse body ctx tr nowIso).transactionId
        = body.output_TransactionID
    ∧ (MpesaService.transformResponse body ctx tr nowIso).conversationId
        = body.output_ConversationID
    ∧ (MpesaService.transformResponse body ctx tr nowIso).thirdPartyReference
        = body.output_ThirdPartyReference := by
  unfold MpesaService.transformResponse
  simp [h]

/-- A success body as delivered by the gateway. -/
def okBody : MpesaBaseResponse :=
  { output_ResponseCode := "INS-0", output_ResponseDesc := "Request processed successfully",
    output_TransactionID := some "trx_c2b_123", output_ConversationID := some "conv_c2b_123",
    output_ThirdPartyReference := some "REF1" }

/-- Witness for C5: the theorem applied to `okBody` with a concrete
transform. -/
theorem C5_witness :
    okBody.output_ResponseCode = "INS-0"
    ∧ (MpesaService.transformResponse okBody "C2B" (fun d => jsOr d.output_TransactionID "") nowDemo).status
        = RespStatus.success
    ∧ (MpesaService.transformResponse okBody "C2B" (fun d => jsOr d.output_TransactionID "") nowDemo).httpStatus
        = some 200
    ∧ (MpesaService.transformResponse okBody "C2B" (fun d => jsOr d.output_TransactionID "") nowDemo).data
        = some (jsOr okBody.output_TransactionID "") :=
  ⟨rfl,
   (C5_success_transform okBody "C2B" (fun d => jsOr d.output_TransactionID "") nowDemo rfl).1,
   (C5_success_transform okBody "C2B" (fun d => jsOr d.output_TransactionID "") nowDemo rfl).2.1,
   (C5_success_transform okBody "C2B" (fun d => jsOr d.output_TransactionID "") nowDemo rfl).2.2.1⟩

/-- Exactly-one-outcome shape of a single operation run. -/
theorem runOperation_exclusive {T : Type} (ctx : String) (tr : MpesaBaseResponse → T)
    (nowIso : String) (outcome : MpesaService.TransportOutcome) :
    (∃ env, MpesaService.runOperation ctx tr nowIso outcome = Except.ok env
        ∧ env.status = RespStatus.success ∧ env.data ≠ none)
      ↔ ¬ (∃ e, MpesaService.runOperation ctx tr nowIso outcome = Except.error e) := by
  cases outcome with
  | resolved st body =>
    by_cases h : body.output_ResponseCode = "INS-0"
    · rw [runOperation_resolved, if_pos h]
      constructor
      · intro _ hcontra
        obtain ⟨e, he⟩ := hcontra
        exact Except.noConfusion he
      · intro _
        refine ⟨MpesaService.transformResponse body ctx tr nowIso, rfl, ?_, ?_⟩
        · unfold MpesaService.transformResponse
          simp [h]
        · unfold MpesaService.transformResponse
          simp [h]
    · rw [runOperation_resolved, if_neg h]
      constructor
      · intro hcontra
        obtain ⟨env, he, _⟩ := hcontra
        exact Except.noConfusion he
      · intro hcontra
        exact absurd ⟨_, rfl⟩ hcontra
  | rejected e =>
    rw [runOperation_rejected]
    constructor
    · intro hcontra
      obtain ⟨env, he, _⟩ := hcontra
      exact Except.noConfusion he
    · intro hcontra
      exact absurd ⟨_, rfl⟩ hcontra

/-- C2: for every transport outcome, each of the five operations produces
exactly one of a normalized success envelope (with status success and a
present data payload — never a raw body, never an empty result) or a thrown
`MpesaError`: the two cases are mutually exclusive and exhaustive. -/
theorem C2_exactly_one_outcome (config : MpesaAPIConfig) (nowIso : String)
    (outcome : MpesaService.TransportOutcome)
    (a1 : C2BArgs) (a2 : B2CArgs) (a3 : B2BArgs) (a4 : QueryArgs) (a5 : ReversalArgs) :
    ((∃ env, MpesaService.c2b config a1 nowIso outcome = Except.ok env
        ∧ env.status = RespStatus.success ∧ env.data ≠ none)
      ↔ ¬ (∃ e, MpesaService.c2b config a1 nowIso outcome = Except.error e))
    ∧ ((∃ env, MpesaService.b2c config a2 nowIso outcome = Except.ok env
        ∧ env.status = RespStatus.success ∧ env.data ≠ none)
      ↔ ¬ (∃ e, MpesaService.b2c config a2 nowIso outcome = Except.error e))
    ∧ ((∃ env, MpesaService.b2b config a3 nowIso outcome = Except.ok env
        ∧ env.status = RespStatus.success ∧ env.data ≠ none)
      ↔ ¬ (∃ e, MpesaService.b2b config a3 nowIso outcome = Except.error e))
    ∧ ((∃ env, MpesaService.query config a4 nowIso outcome = Except.ok env
        ∧ env.status = RespStatus.success ∧ env.data ≠ none)
      ↔ ¬ (∃ e, MpesaService.query config a4 nowIso outcome = Except.error e))
    ∧ ((∃ env, MpesaService.reversal config a5 nowIso outcome = Except.ok env
        ∧ env.status = RespStatus.success ∧ env.data ≠ none)
      ↔ ¬ (∃ e, MpesaService.reversal config a5 nowIso outcome = Except.error e)) :=
  ⟨runOperation_exclusive _ _ _ _, runOperation_exclusive _ _ _ _,
   runOperation_exclusive _ _ _ _, runOperation_exclusive _ _ _ _,
   runOperation_exclusive _ _ _ _⟩

/-- The envelope invariant holds for every run of an operation. -/
theorem runOperation_envInvariant {T : Type} (ctx : String) (tr : MpesaBaseResponse → T)
    (nowIso : String) (outcome : MpesaService.TransportOutcome) :
    envInvariant (MpesaService.runOperation ctx tr nowIso outcome) = true := by
  cases outcome with
  | resolved st body =>
    by_cases h : body.output_ResponseCode = "INS-0"
    · rw [runOperation_resolved, if_pos h]
      unfold envInvariant MpesaService.transformResponse
      simp [h]
    · rw [runOperation_resolved, if_neg h]
      rfl
  | rejected e =>
    rw [runOperation_rejected]
    rfl

/-- C10: every envelope actually returned (rather than thrown) by any of the
five operations has status success, httpStatus 200 and a present data
payload; the error branch of `transformResponse` (status error,
httpStatus 400, absent data) is unreachable through the public operations,
which reach `transformResponse` only after checking the success sentinel. -/
theorem C10_envelope_invariant (config : MpesaAPIConfig) (nowIso : String)
    (outcome : MpesaService.TransportOutcome)
    (a1 : C2BArgs) (a2 : B2CArgs) (a3 : B2BArgs) (a4 : QueryArgs) (a5 : ReversalArgs) :
    envInvariant (MpesaService.c2b config a1 nowIso outcome) = true
    ∧ envInvariant (MpesaService.b2c config a2 nowIso outcome) = true
    ∧ envInvariant (MpesaService.b2b config a3 nowIso outcome) = true
    ∧ envInvariant (MpesaService.query config a4 nowIso outcome) = true
    ∧ envInvariant (MpesaService.reversal config a5 nowIso outcome) = true :=
  ⟨runOperation_envInvariant _ _ _ _, runOperation_envInvariant _ _ _ _,
   runOperation_envInvariant _ _ _ _, runOperation_envInvariant _ _ _ _,
   runOperation_envInvariant _ _ _ _⟩

/-! ## Unknown-code description sourcing (claim C7) -/

/-- C7 amended: when the error handler receives a transport-level failure
whose body carries a non-empty response code absent from the static table
and a non-empty description, the thrown error's description is the
upstream-supplied text. -/
theorem C7_unknown_code_description (st : Nat) (d : MpesaBaseResponse)
    (m : Option String) (ctx : String)
    (hcode : d.output_ResponseCode ≠ "")
    (htab : mpesaErrorMessage d.output_ResponseCode = none)
    (hdesc : d.output_ResponseDesc ≠ "") :
    (MpesaService.handleMpesaError
        { isAxiosError := true, response := some { status := st, data := some d }, message := m }
        ctx).details.description
      = d.output_ResponseDesc := by
  unfold MpesaService.handleMpesaError
  simp only [jsOr, if_neg hcode, htab, if_neg hdesc]

/-- A body with an unknown (but non-empty) code and upstream description. -/
def unknownCodeBody : MpesaBaseResponse :=
  { output_ResponseCode := "INS-9999", output_ResponseDesc := "Upstream-specific failure text" }

/-- Witness for C7: the amended statement applied to `unknownCodeBody`. -/
theorem C7_witness :
    unknownCodeBody.output_ResponseCode ≠ ""
    ∧ mpesaErrorMessage unknownCodeBody.output_ResponseCode = none
    ∧ unknownCodeBody.output_ResponseDesc ≠ ""
    ∧ (MpesaService.handleMpesaError
        { isAxiosError := true,
          response := some { status := 400, data := some unknownCodeBody },
          message := some "Request failed with status code 400" }
        "C2B").details.description
      = unknownCodeBody.output_ResponseDesc :=
  ⟨by decide, by decide, by decide,
   C7_unknown_code_description 400 unknownCodeBody
     (some "Request failed with status code 400") "C2B" (by decide) (by decide) (by decide)⟩

/-- A body whose code is the empty string: absent from the table, yet the
`||` fallback replaces it with `INS-1` before the table lookup. -/
def emptyCodeBody : MpesaBaseResponse :=
  { output_ResponseCode := "", output_ResponseDesc := "Upstream-specific failure text" }

/-- C7 counterexample: an empty-string response code is absent from the
static table and comes with a non-empty upstream description, yet the thrown
error's description is the generic internal-error fallback, because the
falsy code is replaced by `INS-1` (which is in the table) before lookup. -/
theorem C7_counterexample :
    mpesaErrorMessage emptyCodeBody.output_ResponseCode = none
    ∧ emptyCodeBody.output_ResponseDesc ≠ ""
    ∧ (MpesaService.handleMpesaError
        { isAxiosError := true,
          response := some { status := 422, data := some emptyCodeBody },
          message := some "Request failed with status code 422" }
        "C2B").details.description
      = "Internal Error"
    ∧ "Internal Error" ≠ emptyCodeBody.output_ResponseDesc := by
  decide

/-! ## Key Formatter properties (claim C6) -/

/-- C6 amended: a key containing the `BEGIN PUBLIC KEY` marker is returned
unchanged; a non-empty key free of line-terminator characters and without
the marker is wrapped between the delimiter lines, its body split into
chunks of at most 64 characters, all full except possibly the last, whose
concatenation is exactly the input.  (For keys containing line terminators
the terminators are dropped by the chunking regex, so the concatenation
property fails — see the counterexample.) -/
theorem C6_key_formatter (key : List Char)
    (hne : key ≠ [])
    (hterm : ∀ c ∈ key, isLineTerminator c = false)
    (hmark : hasSub key beginMarker = false) :
    (∀ k2 : List Char, hasSub k2 beginMarker = true → formatPublicKeyL k2 = k2)
    ∧ formatPublicKeyL key = pemBegin ++ '\n' :: joinNL (chunk64 key) ++ '\n' :: pemEnd
    ∧ (∀ ch ∈ chunk64 key, ch.length ≤ 64 ∧ ch ≠ [] ∧ '\n' ∉ ch)
    ∧ (∀ ch ∈ (chunk64 key).dropLast, ch.length = 64)
    ∧ (chunk64 key).flatten = key := by
  refine ⟨?_, ?_, ?_, chunk64_dropLast_full key, chunk64_flatten key⟩
  · intro k2 h2
    unfold formatPublicKeyL
    rw [if_pos h2]
  · have hmark2 : ¬ (hasSub key beginMarker = true) := by simp [hmark]
    have hcne : chunk64 key ≠ [] := fun hnil => hne ((chunk64_eq_nil_iff key).mp hnil)
    obtain ⟨ch, chs, hch⟩ := List.exists_cons_of_ne_nil hcne
    unfold formatPublicKeyL
    rw [if_neg hmark2, jsMatchChunks_of_no_terminator key hterm, hch]
  · intro ch hch
    refine ⟨chunk64_mem_length_le key ch hch, chunk64_mem_ne_nil key ch hch, ?_⟩
    intro hmem
    have hky : '\n' ∈ key := by
      rw [← chunk64_flatten key]
      exact List.mem_flatten.mpr ⟨ch, hch, hmem⟩
    have := hterm '\n' hky
    simp [isLineTerminator] at this

/-- A raw base-64 key body with no delimiters and no line terminators. -/
def keyDemo : List Char := "MIIBIjANBgkqh".data

/-- Witness for C6: the amended statement applied to `keyDemo`. -/
theorem C6_witness :
    keyDemo ≠ []
    ∧ ((∀ k2 : List Char, hasSub k2 beginMarker = true → formatPublicKeyL k2 = k2)
      ∧ formatPublicKeyL keyDemo = pemBegin ++ '\n' :: joinNL (chunk64 keyDemo) ++ '\n' :: pemEnd
      ∧ (∀ ch ∈ chunk64 keyDemo, ch.length ≤ 64 ∧ ch ≠ [] ∧ '\n' ∉ ch)
      ∧ (∀ ch ∈ (chunk64 keyDemo).dropLast, ch.length = 64)
      ∧ (chunk64 keyDemo).flatten = keyDemo) :=
  ⟨by decide, C6_key_formatter keyDemo (by decide) (by decide) (by decide)⟩

/-- C6 counterexample: for the non-empty, non-delimited key `a\nb`, the
formatter output's interior lines are `a` and `b`; their concatenation `ab`
differs from the input bytes (and the non-final interior line `a` is shorter
than 64), so the claim's quantification over every non-empty key fails. -/
theorem C6_counterexample :
    (['a', '\n', 'b'] : List Char) ≠ []
    ∧ hasSub ['a', '\n', 'b'] beginMarker = false
    ∧ lineSegments (formatPublicKeyL ['a', '\n', 'b']) = [pemBegin, ['a'], ['b'], pemEnd]
    ∧ ([['a'], ['b']] : List (List Char)).flatten ≠ ['a', '\n', 'b']
    ∧ (['a'] : List Char).length ≠ 64 := by
  have h1 : chunk64 ['a'] = [['a']] := by
    rw [chunk64_cons ['a'] (by decide)]
    simp [chunk64_nil]
  have h2 : chunk64 ['b'] = [['b']] := by
    rw [chunk64_cons ['b'] (by decide)]
    simp [chunk64_nil]
  have h3 : jsMatchChunks ['a', '\n', 'b'] = [['a'], ['b']] := by
    have hseg : lineSegments ['a', '\n', 'b'] = [['a'], ['b']] := by decide
    rw [jsMatchChunks, hseg]
    simp [h1, h2]
  have h4 : formatPublicKeyL ['a', '\n', 'b']
      = pemBegin ++ '\n' :: 'a' :: '\n' :: 'b' :: '\n' :: pemEnd := by
    unfold formatPublicKeyL
    rw [if_neg (by decide), h3]
    rfl
  refine ⟨by decide, by decide, ?_, by decide, by decide⟩
  rw [h4]
  decide

/-! ## Reference Generator properties (claim C9) -/

/-- C9 amended: `generateUniqueReference` produces
`prefix ++ "-" ++ timestampDigits ++ "-" ++ randomDigits` — the groups are
separated by hyphens, not concatenated directly — where the digit groups are
the decimal renderings of the clock value and of the random draw, so the
timestamp group's numeric value is non-decreasing across calls whenever the
clock is. -/
theorem C9_reference_format (pre : String) (t1 t2 r1 r2 : Nat) (h : t1 ≤ t2) :
    generateUniqueReference pre t1 r1
        = pre ++ "-" ++ jsNatToString t1 ++ "-" ++ jsNatToString r1
    ∧ (jsNatToString t1).data ≠ []
    ∧ (∀ c ∈ (jsNatToString t1).data, c.isDigit = true)
    ∧ (∀ c ∈ (jsNatToString r1).data, c.isDigit = true)
    ∧ digitsValS (jsNatToString t1) = t1
    ∧ digitsValS (jsNatToString t2) = t2
    ∧ digitsValS (jsNatToString t1) ≤ digitsValS (jsNatToString t2) := by
  have e1 : digitsValS (jsNatToString t1) = t1 := digitsVal_natDigits t1
  have e2 : digitsValS (jsNatToString t2) = t2 := digitsVal_natDigits t2
  exact ⟨rfl, natDigits_ne_nil t1, natDigits_all_digit t1, natDigits_all_digit r1,
    e1, e2, by omega⟩

/-- Witness for C9: the amended statement at prefix `C2B`, clock values 3
and 4, random draws 1 and 2. -/
theorem C9_witness :
    (3 ≤ 4)
    ∧ (generateUniqueReference "C2B" 3 1
          = "C2B" ++ "-" ++ jsNatToString 3 ++ "-" ++ jsNatToString 1
      ∧ (jsNatToString 3).data ≠ []
      ∧ (∀ c ∈ (jsNatToString 3).data, c.isDigit = true)
      ∧ (∀ c ∈ (jsNatToString 1).data, c.isDigit = true)
      ∧ digitsValS (jsNatToString 3) = 3
      ∧ digitsValS (jsNatToString 4) = 4
      ∧ digitsValS (jsNatToString 3) ≤ digitsValS (jsNatToString 4)) :=
  ⟨by decide, C9_reference_format "C2B" 3 4 1 2 (by decide)⟩

/-- C9 counterexample: the reference generated with prefix `REF`, clock 5
and random draw 7 is `REF-5-7`, which does not match the claimed
separator-free `{prefix}{digits}{digits}` shape (the character after the
prefix is a hyphen). -/
theorem C9_counterexample :
    ¬ refDigitsPattern "REF" (generateUniqueReference "REF" 5 7) := by
  have h5 : natDigits 5 = ['5'] := by
    rw [natDigits]
    simp [digitChar10]
  have h7 : natDigits 7 = ['7'] := by
    rw [natDigits]
    simp [digitChar10]
  have hgen : generateUniqueReference "REF" 5 7 = "REF-5-7" := by
    unfold generateUniqueReference jsNatToString
    rw [h5, h7]
    decide
  rw [hgen]
  rintro ⟨g1, g2, hg1, hg2, hd1, hd2, heq⟩
  have hdata := congrArg String.data heq
  rw [String.data_append, String.data_append] at hdata
  have hsuffix : g1.data ++ g2.data = ['-', '5', '-', '7'] := by
    have hstep : "REF".data ++ (g1.data ++ g2.data) = "REF".data ++ ['-', '5', '-', '7'] := by
      calc "REF".data ++ (g1.data ++ g2.data)
          = "REF".data ++ g1.data ++ g2.data := by rw [List.append_assoc]
        _ = "REF-5-7".data := hdata.symm
        _ = "REF".data ++ ['-', '5', '-', '7'] := by rfl
    exact List.append_cancel_left hstep
  have hmem : '-' ∈ g1.data ++ g2.data := by
    rw [hsuffix]
    exact List.mem_cons_self _ _
  rcases List.mem_append.mp hmem with hm | hm
  · exact absurd (hd1 '-' hm) (by decide)
  · exact absurd (hd2 '-' hm) (by decide)
